import Mathlib

/-!
Verification of the gensim FastText binary-model codec and embedding-table
manager (`gensim/models/fasttext.py`) against its specification.

The Python byte stream is embedded shallowly as a `List Nat` of bytes; the
`struct` module's reads (format `@` = native order on a little-endian host,
standard x86 sizes: `i` = 4-byte signed, `q` = 8-byte signed, `b` = 1-byte
signed, `?` = 1-byte bool, `d` = 8-byte double) become functions consuming a
prefix of the list.  64-bit doubles are carried as their raw 8-byte bit
pattern (a `Nat`), never interpreted arithmetically.  A `struct.unpack` that
cannot fill its format because the stream is exhausted raises `struct.error`
in Python; this is modelled as the `truncated` outcome.
-/

namespace FasttextPy

/-- Value of a little-endian byte list: byte 0 is least significant.
Each byte is reduced `% 256`, matching reassembly of raw bytes. -/
def bytesLE : List Nat → Nat
  | [] => 0
  | b :: bs => b % 256 + 256 * bytesLE bs

/-- Encode `v`'s low `n` bytes, little-endian. -/
def encLE : Nat → Nat → List Nat
  | 0, _ => []
  | n + 1, v => v % 256 :: encLE n (v / 256)

/-- Two's-complement reading of an unsigned `bits`-bit value, as done by
`struct.unpack` for signed formats. -/
def toSigned (bits : Nat) (v : Nat) : Int :=
  if v < 2 ^ (bits - 1) then (v : Int) else (v : Int) - 2 ^ bits

/-- `file_handle.read n` when at least `n` bytes remain; `none` models the
short read that makes `struct.unpack` raise `struct.error`. -/
def readBytes (n : Nat) (s : List Nat) : Option (List Nat × List Nat) :=
  if n ≤ s.length then some (s.take n, s.drop n) else none

/-- One `@i` field (4-byte signed int). -/
def readI32 (s : List Nat) : Option (Int × List Nat) :=
  (readBytes 4 s).map fun p => (toSigned 32 (bytesLE p.1), p.2)

/-- One `@q` field (8-byte signed int). -/
def readI64 (s : List Nat) : Option (Int × List Nat) :=
  (readBytes 8 s).map fun p => (toSigned 64 (bytesLE p.1), p.2)

/-- One `@b` field (1-byte signed char). -/
def readI8 (s : List Nat) : Option (Int × List Nat) :=
  (readBytes 1 s).map fun p => (toSigned 8 (bytesLE p.1), p.2)

/-- One `@?` field (1-byte bool; any nonzero byte is `True`). -/
def readBool (s : List Nat) : Option (Bool × List Nat) :=
  (readBytes 1 s).map fun p => (decide (bytesLE p.1 ≠ 0), p.2)

/-- One `@d` field, kept as its raw 8-byte bit pattern. -/
def readF64raw (s : List Nat) : Option (Nat × List Nat) :=
  (readBytes 8 s).map fun p => (bytesLE p.1, p.2)

/-- Little-endian encoding of a signed 32-bit value. -/
def i32enc (v : Int) : List Nat := encLE 4 (v % 2 ^ 32).toNat

/-- Little-endian encoding of a signed 64-bit value. -/
def i64enc (v : Int) : List Nat := encLE 8 (v % 2 ^ 64).toNat

/-- Little-endian encoding of a 64-bit double's bit pattern. -/
def f64enc (v : Nat) : List Nat := encLE 8 v

/-- Failure modes of the load path.  `truncated` is `struct.error` on a short
read; `unsupportedModelKind` is the `NotImplementedError` for supervised
models; `encodingError` is `UnicodeDecodeError`; `assertionError` is a failed
`assert`; `nameError` is Python's `NameError` on an unbound identifier;
`incompatibleFloatSize` is the `ValueError("Incompatible float size")`. -/
inductive LoadErr where
  | truncated
  | unsupportedModelKind
  | encodingError
  | assertionError
  | nameError
  | incompatibleFloatSize
  deriving DecidableEq, Repr

/-- Sequencing combinator: a raw read that raises `struct.error` (modelled by
`none`) aborts with `truncated`; otherwise the parse continues. -/
def withRead {α β : Type} (x : Option (α × List Nat))
    (k : α → List Nat → Except LoadErr β) : Except LoadErr β :=
  match x with
  | none => .error .truncated
  | some (a, s) => k a s

/-! ## Model Header Codec — `FastText._load_model_params`, lines 810-826 -/

/-- `FASTTEXT_FILEFORMAT_MAGIC` (line 234). -/
def FASTTEXT_FILEFORMAT_MAGIC : Int := 793712314

/-- The scalar hyperparameters read by `_load_model_params`.  Field names
follow the Python local variables; `t` is the sampling threshold, kept as a
raw double bit pattern. -/
structure ModelHeader where
  new_format : Bool
  dim : Int
  ws : Int
  epoch : Int
  min_count : Int
  neg : Int
  loss : Int
  model : Int
  bucket : Int
  minn : Int
  maxn : Int
  t : Nat
  deriving DecidableEq, Repr

/-- Header-parsing prefix of `FastText._load_model_params` (lines 810-826):
read `@2i` as (magic, version); when magic equals the file-format magic the
format is new and `@12i1d` follows (dim, ws, epoch, min_count, neg, unused,
loss, model, bucket, minn, maxn, unused, t); otherwise the two integers
already read are (dim, ws) and `@10i1d` follows (epoch, min_count, neg,
unused, loss, model, bucket, minn, maxn, unused, t).  Returns the parsed
header and the unconsumed remainder of the stream. -/
def load_model_params (s : List Nat) : Except LoadErr (ModelHeader × List Nat) :=
  withRead (readI32 s) fun magic s =>
  withRead (readI32 s) fun version s =>
  if magic = FASTTEXT_FILEFORMAT_MAGIC then
    withRead (readI32 s) fun dim s =>
    withRead (readI32 s) fun ws s =>
    withRead (readI32 s) fun epoch s =>
    withRead (readI32 s) fun min_count s =>
    withRead (readI32 s) fun neg s =>
    withRead (readI32 s) fun _ s =>
    withRead (readI32 s) fun loss s =>
    withRead (readI32 s) fun model s =>
    withRead (readI32 s) fun bucket s =>
    withRead (readI32 s) fun minn s =>
    withRead (readI32 s) fun maxn s =>
    withRead (readI32 s) fun _ s =>
    withRead (readF64raw s) fun t s =>
    .ok ({ new_format := true, dim, ws, epoch, min_count, neg, loss, model,
           bucket, minn, maxn, t }, s)
  else
    let dim := magic
    let ws := version
    withRead (readI32 s) fun epoch s =>
    withRead (readI32 s) fun min_count s =>
    withRead (readI32 s) fun neg s =>
    withRead (readI32 s) fun _ s =>
    withRead (readI32 s) fun loss s =>
    withRead (readI32 s) fun model s =>
    withRead (readI32 s) fun bucket s =>
    withRead (readI32 s) fun minn s =>
    withRead (readI32 s) fun maxn s =>
    withRead (readI32 s) fun _ s =>
    withRead (readF64raw s) fun t s =>
    .ok ({ new_format := false, dim, ws, epoch, min_count, neg, loss, model,
           bucket, minn, maxn, t }, s)

/-! ## Round-trip lemmas for the byte primitives -/

theorem length_encLE (n v : Nat) : (encLE n v).length = n := by
  induction n generalizing v with
  | zero => simp [encLE]
  | succ n ih => simp [encLE, ih]

theorem bytesLE_encLE (n v : Nat) : bytesLE (encLE n v) = v % 2 ^ (8 * n) := by
  induction n generalizing v with
  | zero => simp [encLE, bytesLE, Nat.mod_one]
  | succ n ih =>
    have hpow : (2 : Nat) ^ (8 * (n + 1)) = 256 * 2 ^ (8 * n) := by
      rw [Nat.mul_add, pow_add, Nat.mul_comm]
      norm_num
    have h1 : v % 256 % 256 = v % 256 := Nat.mod_mod_of_dvd v dvd_rfl
    have h2 : v / 256 % 2 ^ (8 * n) = v % (256 * 2 ^ (8 * n)) / 256 :=
      (Nat.mod_mul_right_div_self v 256 (2 ^ (8 * n))).symm
    have h3 : v % (256 * 2 ^ (8 * n)) % 256 = v % 256 :=
      Nat.mod_mod_of_dvd v ⟨2 ^ (8 * n), rfl⟩
    rw [encLE, bytesLE, ih, hpow, h1, h2, ← h3, Nat.mod_add_div]

theorem readBytes_append (l r : List Nat) :
    readBytes l.length (l ++ r) = some (l, r) := by
  simp [readBytes, List.take_left, List.drop_left]

theorem toSigned32_emod (v : Int) (h1 : -(2 ^ 31) ≤ v) (h2 : v < 2 ^ 31) :
    toSigned 32 ((v % 2 ^ 32).toNat) = v := by
  rw [toSigned]
  norm_num
  split <;> omega

theorem toSigned64_emod (v : Int) (h1 : -(2 ^ 63) ≤ v) (h2 : v < 2 ^ 63) :
    toSigned 64 ((v % 2 ^ 64).toNat) = v := by
  rw [toSigned]
  norm_num
  split <;> omega

theorem readI32_enc (v : Int) (rest : List Nat) (h1 : -(2 ^ 31) ≤ v)
    (h2 : v < 2 ^ 31) : readI32 (i32enc v ++ rest) = some (v, rest) := by
  have hlen : (i32enc v).length = 4 := length_encLE _ _
  rw [readI32, show (4 : Nat) = (i32enc v).length from hlen.symm, readBytes_append]
  have hlt : (v % 2 ^ 32).toNat < 2 ^ (8 * 4) := by
    have ha := Int.emod_nonneg v (show (2 : Int) ^ 32 ≠ 0 by norm_num)
    have hb := Int.emod_lt_of_pos v (show (0 : Int) < 2 ^ 32 by norm_num)
    norm_num
    omega
  rw [Option.map_some', i32enc, bytesLE_encLE, Nat.mod_eq_of_lt hlt,
    toSigned32_emod v h1 h2]

theorem readI64_enc (v : Int) (rest : List Nat) (h1 : -(2 ^ 63) ≤ v)
    (h2 : v < 2 ^ 63) : readI64 (i64enc v ++ rest) = some (v, rest) := by
  have hlen : (i64enc v).length = 8 := length_encLE _ _
  rw [readI64, show (8 : Nat) = (i64enc v).length from hlen.symm, readBytes_append]
  have hlt : (v % 2 ^ 64).toNat < 2 ^ (8 * 8) := by
    have ha := Int.emod_nonneg v (show (2 : Int) ^ 64 ≠ 0 by norm_num)
    have hb := Int.emod_lt_of_pos v (show (0 : Int) < 2 ^ 64 by norm_num)
    norm_num
    omega
  rw [Option.map_some', i64enc, bytesLE_encLE, Nat.mod_eq_of_lt hlt,
    toSigned64_emod v h1 h2]

theorem readF64raw_enc (v : Nat) (rest : List Nat) (h : v < 2 ^ 64) :
    readF64raw (f64enc v ++ rest) = some (v, rest) := by
  have hlen : (f64enc v).length = 8 := length_encLE _ _
  rw [readF64raw, show (8 : Nat) = (f64enc v).length from hlen.symm, readBytes_append]
  rw [Option.map_some', f64enc, bytesLE_encLE, Nat.mod_eq_of_lt (by norm_num; omega)]

theorem readI8_cons (b : Nat) (rest : List Nat) :
    readI8 (b :: rest) = some (toSigned 8 (b % 256), rest) := by
  simp [readI8, readBytes, bytesLE]

theorem readBool_cons (b : Nat) (rest : List Nat) :
    readBool (b :: rest) = some (decide (b % 256 ≠ 0), rest) := by
  simp [readBool, readBytes, bytesLE]

theorem withRead_some {α β : Type} (a : α) (s : List Nat)
    (k : α → List Nat → Except LoadErr β) : withRead (some (a, s)) k = k a s := rfl

/-! ## Vocabulary Table Codec — `_load_vocab`, lines 1050-1103 -/

/-- Raw vocabulary produced by `_load_vocab`: the two declared sizes read
from the stream (`v.vocab_size`, `v.nwords`) and the word → count dictionary
`v.raw_vocab`, modelled as an insertion-ordered association list. -/
structure RawVocab where
  vocab_size : Int
  nwords : Int
  raw_vocab : List (String × Int)
  deriving DecidableEq, Repr

/-- Python dict assignment `d[k] = v`: overwrite in place when the key is
present, append otherwise (insertion order preserved, last write wins). -/
def dictInsert (d : List (String × Int)) (k : String) (v : Int) :
    List (String × Int) :=
  match d with
  | [] => [(k, v)]
  | (k', v') :: rest =>
    if k' = k then (k, v) :: rest else (k', v') :: dictInsert rest k v

/-- Python dict lookup `d[k]`. -/
def dictLookup (d : List (String × Int)) (k : String) : Option Int :=
  match d with
  | [] => none
  | (k', v') :: rest => if k' = k then some v' else dictLookup rest k'

/-- The null-terminated word bytes of one vocabulary entry (`_load_vocab`
lines 1089-1094): single bytes are read and accumulated until a zero byte,
which is consumed and dropped.  (At EOF Python's `read(1)` returns `b''`
forever and the loop never terminates; that degenerate stream is modelled as
a failed read.) -/
def readWordBytes : List Nat → Option (List Nat × List Nat)
  | [] => none
  | b :: s =>
    if b = 0 then some ([], s)
    else (readWordBytes s).map fun p => (b :: p.1, p.2)

/-- Per-entry loop of `_load_vocab` (lines 1088-1097), reading `n` entries:
null-terminated word bytes, text-decoded with the caller-specified encoding
(the `decode` parameter; a byte sequence invalid for that encoding raises
`UnicodeDecodeError`, modelled as `decode` returning `none`), then `@qb`
(a 64-bit count and one discarded byte); each entry is stored with
`v.raw_vocab[word] = count`. -/
def loadVocabWords (decode : List Nat → Option String) :
    Nat → List (String × Int) → List Nat →
    Except LoadErr (List (String × Int) × List Nat)
  | 0, acc, s => .ok (acc, s)
  | n + 1, acc, s =>
    withRead (readWordBytes s) fun wb s =>
    match decode wb with
    | none => .error .encodingError
    | some word =>
      withRead (readI64 s) fun count s =>
      withRead (readI8 s) fun _ s =>
      loadVocabWords decode n (dictInsert acc word count) s

/-- Pruned-index skip loop of `_load_vocab` (lines 1099-1101): `@2i` read
and discarded, `n` times. -/
def skipPruneidx : Nat → List Nat → Except LoadErr (List Nat)
  | 0, s => .ok s
  | n + 1, s =>
    withRead (readI32 s) fun _ s =>
    withRead (readI32 s) fun _ s =>
    skipPruneidx n s

/-- `_load_vocab` (lines 1050-1103): read `@3i` as (vocab_size, nwords,
nlabels) and raise `NotImplementedError` for supervised models
(nlabels > 0); read and discard `@1q` (token count); in the new format read
`@q` as pruneidx_size; read `vocab_size` word entries (Python's
`range(v.vocab_size)`, empty for a negative value, hence `Int.toNat`); and
then — only AFTER the word entries — skip the pruneidx_size pairs of `@2i`.
In the legacy format `pruneidx_size` is never read nor used; the shim value
`0` here is dead in that branch. -/
def load_vocab (decode : List Nat → Option String) (new_format : Bool)
    (s : List Nat) : Except LoadErr (RawVocab × List Nat) :=
  withRead (readI32 s) fun vocab_size s =>
  withRead (readI32 s) fun nwords s =>
  withRead (readI32 s) fun nlabels s =>
  if nlabels > 0 then .error .unsupportedModelKind
  else
    withRead (readI64 s) fun _ s =>
    withRead (if new_format then readI64 s else some (0, s)) fun pruneidx_size s =>
    match loadVocabWords decode vocab_size.toNat [] s with
    | .error e => .error e
    | .ok (raw_vocab, s) =>
      match (if new_format then skipPruneidx pruneidx_size.toNat s else .ok s) with
      | .error e => .error e
      | .ok s => .ok ({ vocab_size, nwords, raw_vocab }, s)

/-- The vocabulary reader as the specification's words describe it (§4.3,
§6): identical to `load_vocab` except that in the new format the
pruned-index pairs are skipped immediately after `pruneidx_size` is read,
BEFORE the word entries.  Declared only to be compared against
`load_vocab`; it embeds the spec's claimed field order, not the source. -/
def load_vocab_spec_order (decode : List Nat → Option String)
    (new_format : Bool) (s : List Nat) : Except LoadErr (RawVocab × List Nat) :=
  withRead (readI32 s) fun vocab_size s =>
  withRead (readI32 s) fun nwords s =>
  withRead (readI32 s) fun nlabels s =>
  if nlabels > 0 then .error .unsupportedModelKind
  else
    withRead (readI64 s) fun _ s =>
    withRead (if new_format then readI64 s else some (0, s)) fun pruneidx_size s =>
    match (if new_format then skipPruneidx pruneidx_size.toNat s else .ok s) with
    | .error e => .error e
    | .ok s =>
      match loadVocabWords decode vocab_size.toNat [] s with
      | .error e => .error e
      | .ok (raw_vocab, s) => .ok ({ vocab_size, nwords, raw_vocab }, s)

/-- A total caller-supplied text decoding (Python's `'latin-1'` codec, under
which every byte value is its own code point).  Used to instantiate the
`decode` parameter in concrete witnesses. -/
def decodeLatin1 (bs : List Nat) : Option String :=
  some ⟨bs.map fun b => Char.ofNat (b % 256)⟩

/-! ## Binary Matrix Codec — `_load_matrix`, lines 979-1027 -/

/-- The two numpy dtypes `_load_matrix` can select (lines 1017-1023). -/
inductive FloatDtype where
  | float32
  | float64
  deriving DecidableEq, Repr

/-- The numpy array returned by `_load_matrix`: declared shape, element
dtype, and the raw per-float bit patterns in row-major order (floats are
never interpreted arithmetically here). -/
structure NpMatrix where
  rows : Int
  cols : Int
  dtype : FloatDtype
  data : List Nat
  deriving DecidableEq, Repr

/-- `np.fromfile(file_handle, dtype, count)`: `count` floats of
`float_size` bytes each, kept as raw bit patterns. -/
def readFloats (float_size : Nat) : Nat → List Nat → Option (List Nat × List Nat)
  | 0, s => some ([], s)
  | n + 1, s =>
    (readBytes float_size s).bind fun p =>
    (readFloats float_size n p.2).map fun q => (bytesLE p.1 :: q.1, q.2)

/-- `_load_matrix` (lines 979-1027).  `float_size` is
`struct.calcsize('@f')`: the byte width of the loading interpreter's C
`float`, an ambient property of the platform evaluated at line 1017 — it is
NOT read from the stream, so it enters as a parameter.  In the new format
one `@?` byte (`quant_input`, line 1009) is read and its value discarded;
`@2q` gives (num_vectors, dim); when `expected_vector_size` is given it must
equal `dim` (assert, line 1012); `float_size` must be 4 (→ float32) or 8
(→ float64), anything else raises `ValueError` (line 1023); finally
`num_vectors * dim` floats are read and reshaped.  (`np.fromfile` with a
negative count would instead read to EOF; every claim here is settled on
non-negative shapes, and `Int.toNat` models the count.) -/
def load_matrix (float_size : Nat) (new_format : Bool)
    (expected_vector_size : Option Int) (s : List Nat) :
    Except LoadErr (NpMatrix × List Nat) :=
  withRead (if new_format then (readBool s).map (fun p => ((), p.2))
            else some ((), s)) fun _ s =>
  withRead (readI64 s) fun num_vectors s =>
  withRead (readI64 s) fun dim s =>
  if expected_vector_size.getD dim ≠ dim then .error .assertionError
  else
    match (if float_size = 4 then .ok .float32
           else if float_size = 8 then .ok .float64
           else .error .incompatibleFloatSize : Except LoadErr FloatDtype) with
    | .error e => .error e
    | .ok dtype =>
      withRead (readFloats float_size (num_vectors * dim).toNat s) fun data s =>
      .ok ({ rows := num_vectors, cols := dim, dtype, data }, s)

/-! ## Post-vocabulary reconciliation — `_load_model_params`, lines 839-850 -/

/-- The checks `_load_model_params` performs after the vocabulary is loaded
and prepared (lines 839-850): first
`assert len(self.wv.vocab) == self.vocabulary.nwords`; then, when the final
vocabulary size differs from the declared `vocab_size`, the code calls
`logger.warning(..., len(self.wv.vocab), vocabulary.vocab_size)` — but
`vocabulary` is an unbound name in that scope (the attribute is
`self.vocabulary`), so evaluating the warning's arguments raises
`NameError` before any message is logged, and the exception aborts the
load.  (`_check_model`, line 1289, contains the identical unbound
reference.) -/
def check_vocab_sizes (final_vocab_len : Nat) (nwords vocab_size : Int) :
    Except LoadErr Unit :=
  if (final_vocab_len : Int) ≠ nwords then .error .assertionError
  else if (final_vocab_len : Int) ≠ vocab_size then .error .nameError
  else .ok ()

/-! ## Embedding Table Manager growth — `init_ngrams_weights` (update
branch, lines 1149-1165) and `_pad_ones` (lines 1199-1203) -/

/-- `_pad_ones` (lines 1199-1203): vstack the matrix with `new_rows`
additional rows of ones, the column count taken from the matrix's own
shape. -/
def pad_ones (m : List (List ℚ)) (new_rows : Nat) : List (List ℚ) :=
  let columns := (m.headD []).length
  m ++ List.replicate new_rows (List.replicate columns 1)

/-- The parallel structures touched by a vocabulary-growth event:
`vectors_vocab` is the VocabularyVectorTable (`wv.vectors_vocab`),
`vectors_vocab_lockf` its lock-factor mask (`trainables.vectors_vocab_lockf`),
and `vocab_len = len(wv.vocab)`. -/
structure GrowState where
  vectors_vocab : List (List ℚ)
  vectors_vocab_lockf : List (List ℚ)
  vocab_len : Nat
  deriving DecidableEq, Repr

/-- Modelled from the spec: `wv.update_ngrams_weights(seed, old_vocab_len)`
lives in `gensim.models.keyedvectors`, which is not under `src/`.  Per §4.5
`grow`, it "appends freshly-initialized rows to `VocabularyVectorTable` for
each new vocabulary entry"; the freshly-initialized rows are abstracted as
`new_rows`, one per new entry. -/
def update_ngrams_weights_vocab (vectors_vocab new_rows : List (List ℚ)) :
    List (List ℚ) :=
  vectors_vocab ++ new_rows

/-- Update branch of `FastTextTrainables.init_ngrams_weights` (lines
1149-1165), restricted to the vocabulary table and its mask.  On entry
`vocabulary.old_vocab_len` holds the pre-growth `len(wv.vocab)` (snapshotted
by `build_vocab`, line 527); `wv.update_ngrams_weights` grows the vocabulary
table by the new entries; then `new_vocab = len(wv.vocab) - old_vocab_len`
rows of ones are appended to `vectors_vocab_lockf` by `_pad_ones`
(line 1162). -/
def init_ngrams_weights_update (st : GrowState) (new_rows : List (List ℚ)) :
    GrowState :=
  let old_vocab_len := st.vocab_len
  let vectors_vocab := update_ngrams_weights_vocab st.vectors_vocab new_rows
  let vocab_len := st.vocab_len + new_rows.length
  let new_vocab := vocab_len - old_vocab_len
  { vectors_vocab
    vectors_vocab_lockf := pad_ones st.vectors_vocab_lockf new_vocab
    vocab_len }

/-! ## Lock-factor mask shapes after a native-format load —
`init_post_load`, lines 1167-1196 -/

/-- Row/column shapes of the two vector tables and their lock-factor masks
after loading a persisted native model. -/
structure PostLoadShapes where
  vectors_ngrams_shape : Nat × Nat
  vectors_vocab_shape : Nat × Nat
  vectors_ngrams_lockf_shape : Nat × Nat
  vectors_vocab_lockf_shape : Nat × Nat
  deriving DecidableEq, Repr

/-- Table and mask shapes produced by the load path for a model with
`vocab_size` words, `vector_size` dimensions and `bucket` buckets.  From
`src/`: `init_post_load` (lines 1167-1196) allocates
`vectors_ngrams_lockf = ones((num_vectors, vector_size))` and
`vectors_vocab_lockf = ones((vocab_size, vector_size))`, with
`num_vectors = len(model.wv.vectors)`.  Modelled from the spec:
`wv.vectors` and `wv.vectors_vocab` (allocated by `FastTextKeyedVectors` in
`gensim.models.keyedvectors`, not under `src/`) have one row per
VocabularyEntry (§3 VocabularyVectorTable), i.e. `vocab_size` rows of width
`vector_size`; the bucket-vector table `wv.vectors_ngrams` is the §3
BucketTable, a fixed-capacity array of `bucket` rows of width
`vector_size`. -/
def init_post_load_shapes (vocab_size vector_size bucket : Nat) :
    PostLoadShapes :=
  let num_vectors := vocab_size
  { vectors_ngrams_shape := (bucket, vector_size)
    vectors_vocab_shape := (vocab_size, vector_size)
    vectors_ngrams_lockf_shape := (num_vectors, vector_size)
    vectors_vocab_lockf_shape := (vocab_size, vector_size) }

/-! ## `FastText.build_vocab` — lines 463-532 -/

/-- The model fields `build_vocab` touches: the vocabulary mapping
`wv.vocab`, the two tables guarded by claims about failed updates, the
`wv.hash2index` length, and the two snapshot fields the update branch
assigns. -/
structure FTModelState where
  wv_vocab : List (String × Nat)
  vectors_vocab : List (List ℚ)
  vectors_vocab_lockf : List (List ℚ)
  hash2index_len : Nat
  old_vocab_len : Nat
  old_hash2index_len : Nat
  deriving DecidableEq, Repr

/-- The only exception `FastText.build_vocab` itself raises. -/
inductive BuildVocabErr where
  | runtimeError
  deriving DecidableEq, Repr

/-- `FastText.build_vocab` (lines 463-532).  With `update=True` and an
empty `wv.vocab` (`if not len(self.wv.vocab)`), a `RuntimeError` is raised
before any assignment; otherwise the two `old_*` snapshots are stored and
the superclass `build_vocab` — `BaseWordEmbeddingsModel.build_vocab`, an
external collaborator that is not under `src/`, abstracted as the
`super_build` parameter — performs the vocabulary construction.  A raise is
modelled as `(unchanged state, some error)`. -/
def build_vocab (st : FTModelState) (update : Bool)
    (super_build : FTModelState → FTModelState) :
    FTModelState × Option BuildVocabErr :=
  if update then
    if st.wv_vocab.length = 0 then (st, some .runtimeError)
    else
      let st' := { st with old_vocab_len := st.wv_vocab.length,
                           old_hash2index_len := st.hash2index_len }
      (super_build st', none)
  else (super_build st, none)

instance {ε α : Type} [DecidableEq ε] [DecidableEq α] :
    DecidableEq (Except ε α) := fun x y =>
  match x, y with
  | .error a, .error b =>
    if h : a = b then .isTrue (h ▸ rfl)
    else .isFalse fun hh => h (Except.error.inj hh)
  | .error _, .ok _ => .isFalse fun hh => Except.noConfusion hh
  | .ok _, .error _ => .isFalse fun hh => Except.noConfusion hh
  | .ok a, .ok b =>
    if h : a = b then .isTrue (h ▸ rfl)
    else .isFalse fun hh => h (Except.ok.inj hh)

/-- Range of a value representable as a signed 32-bit integer. -/
def i32range (v : Int) : Prop := -(2 ^ 31) ≤ v ∧ v < 2 ^ 31

instance (v : Int) : Decidable (i32range v) := by
  unfold i32range
  infer_instance

/-! ## Encodings of the vocabulary section, for stating layout theorems -/

/-- One on-disk vocabulary entry: the word's bytes (free of the null
terminator), its 64-bit count, and the single trailing byte the reader
discards. -/
structure VocabEntry where
  word_bytes : List Nat
  count : Int
  flag : Nat
  deriving DecidableEq, Repr

/-- Binary encoding of one vocabulary entry: null-terminated word bytes,
`@q` count, one trailing byte. -/
def entryEnc (e : VocabEntry) : List Nat :=
  e.word_bytes ++ [0] ++ i64enc e.count ++ [e.flag % 256]

/-- Binary encoding of a sequence of vocabulary entries. -/
def entriesEnc (es : List VocabEntry) : List Nat := (es.map entryEnc).flatten

/-- Binary encoding of the pruned-index pairs (`@2i` each). -/
def pairsEnc (ps : List (Int × Int)) : List Nat :=
  (ps.map fun p => i32enc p.1 ++ i32enc p.2).flatten

/-- A vocabulary entry the reader can consume: word bytes contain no
terminator and decode successfully, and the count is a 64-bit value. -/
def entryWF (decode : List Nat → Option String) (e : VocabEntry) : Prop :=
  (∀ b ∈ e.word_bytes, b ≠ 0) ∧ (decode e.word_bytes).isSome ∧
    -(2 ^ 63) ≤ e.count ∧ e.count < 2 ^ 63

instance (decode : List Nat → Option String) (e : VocabEntry) :
    Decidable (entryWF decode e) := by
  unfold entryWF
  infer_instance

/-- The dictionary state after reading the entries `es` on top of `acc`:
each entry performs `raw_vocab[word] = count` in order. -/
def insertEntries (decode : List Nat → Option String)
    (acc : List (String × Int)) (es : List VocabEntry) : List (String × Int) :=
  es.foldl (fun d e => dictInsert d ((decode e.word_bytes).getD "") e.count) acc

theorem readWordBytes_enc (wb rest : List Nat) (h : ∀ b ∈ wb, b ≠ 0) :
    readWordBytes (wb ++ 0 :: rest) = some (wb, rest) := by
  induction wb with
  | nil => simp [readWordBytes]
  | cons b bs ih =>
    have hb : b ≠ 0 := h b (List.mem_cons_self b bs)
    have ih' := ih fun x hx => h x (List.mem_cons_of_mem b hx)
    rw [List.cons_append, readWordBytes, if_neg hb, ih', Option.map_some']

/-- Unfolding of `insertEntries` over the first entry. -/
theorem insertEntries_cons (decode : List Nat → Option String)
    (acc : List (String × Int)) (e : VocabEntry) (es : List VocabEntry) :
    insertEntries decode acc (e :: es) =
      insertEntries decode
        (dictInsert acc ((decode e.word_bytes).getD "") e.count) es := rfl

theorem loadVocabWords_enc (decode : List Nat → Option String)
    (es : List VocabEntry) (acc : List (String × Int)) (rest : List Nat)
    (h : ∀ e ∈ es, entryWF decode e) :
    loadVocabWords decode es.length acc (entriesEnc es ++ rest) =
      .ok (insertEntries decode acc es, rest) := by
  induction es generalizing acc rest with
  | nil => simp [entriesEnc, loadVocabWords, insertEntries]
  | cons e es ih =>
    obtain ⟨h1, h2, h3, h4⟩ := h e (List.mem_cons_self e es)
    obtain ⟨w, hw⟩ := Option.isSome_iff_exists.mp h2
    have hrest : ∀ x ∈ es, entryWF decode x := fun x hx =>
      h x (List.mem_cons_of_mem e hx)
    have hstream : entriesEnc (e :: es) ++ rest =
        e.word_bytes ++ 0 :: (i64enc e.count ++ (e.flag % 256) ::
          (entriesEnc es ++ rest)) := by
      simp [entriesEnc, entryEnc, List.append_assoc]
    rw [List.length_cons, hstream, loadVocabWords, readWordBytes_enc _ _ h1,
      withRead_some, hw]
    simp only [readI64_enc _ _ h3 h4, withRead_some, readI8_cons,
      ih (dictInsert acc w e.count) rest hrest, insertEntries_cons, hw,
      Option.getD_some]

theorem skipPruneidx_enc (ps : List (Int × Int)) (rest : List Nat)
    (h : ∀ p ∈ ps, i32range p.1 ∧ i32range p.2) :
    skipPruneidx ps.length (pairsEnc ps ++ rest) = .ok rest := by
  induction ps generalizing rest with
  | nil => simp [pairsEnc, skipPruneidx]
  | cons p ps ih =>
    obtain ⟨h1, h2⟩ := h p (List.mem_cons_self p ps)
    have hrest : ∀ x ∈ ps, i32range x.1 ∧ i32range x.2 := fun x hx =>
      h x (List.mem_cons_of_mem p hx)
    have hstream : pairsEnc (p :: ps) ++ rest =
        i32enc p.1 ++ (i32enc p.2 ++ (pairsEnc ps ++ rest)) := by
      simp [pairsEnc, List.append_assoc]
    rw [List.length_cons, hstream, skipPruneidx, readI32_enc _ _ h1.1 h1.2,
      withRead_some, readI32_enc _ _ h2.1 h2.2, withRead_some, ih rest hrest]

/-! ## Claim theorems -/

/-- C1: `read_header` reads two 32-bit integers; if the first equals the
magic constant 793712314 it parses the new format (a version field already
consumed as the second integer, then 12 more 32-bit integers and one 64-bit
float in the order dim, window, epoch, min_count, negatives, unused, loss,
model_type, bucket, min_n, max_n, unused, sampling_threshold); otherwise it
parses the legacy format, taking the two integers already read as
(dim, window) followed by 10 more 32-bit integers and one 64-bit float in
the same order minus the leading slots. -/
theorem load_model_params_spec
    (magic version dim ws epoch min_count neg u1 loss model bucket minn maxn
     u2 : Int) (t : Nat) (rest : List Nat)
    (hmagic : i32range magic) (hversion : i32range version)
    (hdim : i32range dim) (hws : i32range ws) (hepoch : i32range epoch)
    (hmin_count : i32range min_count) (hneg : i32range neg)
    (hu1 : i32range u1) (hloss : i32range loss) (hmodel : i32range model)
    (hbucket : i32range bucket) (hminn : i32range minn)
    (hmaxn : i32range maxn) (hu2 : i32range u2) (ht : t < 2 ^ 64) :
    (load_model_params (i32enc FASTTEXT_FILEFORMAT_MAGIC ++ i32enc version ++
        i32enc dim ++ i32enc ws ++ i32enc epoch ++ i32enc min_count ++
        i32enc neg ++ i32enc u1 ++ i32enc loss ++ i32enc model ++
        i32enc bucket ++ i32enc minn ++ i32enc maxn ++ i32enc u2 ++
        f64enc t ++ rest) =
      .ok ({ new_format := true, dim, ws, epoch, min_count, neg, loss, model,
             bucket, minn, maxn, t }, rest)) ∧
    (magic ≠ FASTTEXT_FILEFORMAT_MAGIC →
      load_model_params (i32enc magic ++ i32enc version ++ i32enc epoch ++
        i32enc min_count ++ i32enc neg ++ i32enc u1 ++ i32enc loss ++
        i32enc model ++ i32enc bucket ++ i32enc minn ++ i32enc maxn ++
        i32enc u2 ++ f64enc t ++ rest) =
      .ok ({ new_format := false, dim := magic, ws := version, epoch,
             min_count, neg, loss, model, bucket, minn, maxn, t }, rest)) := by
  have hm1 : -(2 ^ 31 : Int) ≤ FASTTEXT_FILEFORMAT_MAGIC := by
    norm_num [FASTTEXT_FILEFORMAT_MAGIC]
  have hm2 : FASTTEXT_FILEFORMAT_MAGIC < (2 ^ 31 : Int) := by
    norm_num [FASTTEXT_FILEFORMAT_MAGIC]
  constructor
  · simp only [load_model_params, List.append_assoc, withRead_some, readI32_enc, readF64raw_enc,
      hm1, hm2, hversion.1, hversion.2, hdim.1, hdim.2, hws.1, hws.2,
      hepoch.1, hepoch.2, hmin_count.1, hmin_count.2, hneg.1, hneg.2,
      hu1.1, hu1.2, hloss.1, hloss.2, hmodel.1, hmodel.2,
      hbucket.1, hbucket.2, hminn.1, hminn.2, hmaxn.1, hmaxn.2,
      hu2.1, hu2.2, ht, eq_self_iff_true, ite_true, if_true]
  · intro hne
    simp only [load_model_params, List.append_assoc, withRead_some, readI32_enc, readF64raw_enc,
      hmagic.1, hmagic.2, hversion.1, hversion.2,
      hepoch.1, hepoch.2, hmin_count.1, hmin_count.2, hneg.1, hneg.2,
      hu1.1, hu1.2, hloss.1, hloss.2, hmodel.1, hmodel.2,
      hbucket.1, hbucket.2, hminn.1, hminn.2, hmaxn.1, hmaxn.2,
      hu2.1, hu2.2, ht, hne, ite_false, if_false]

/-- Witness for C1: both formats parsed at concrete field values
(new-format stream with magic 793712314, and a legacy stream whose first
integer 25 is not the magic). -/
theorem load_model_params_spec_witness :
    i32range 25 ∧ (25 : Int) ≠ FASTTEXT_FILEFORMAT_MAGIC ∧
    (load_model_params (i32enc FASTTEXT_FILEFORMAT_MAGIC ++ i32enc 12 ++
        i32enc 100 ++ i32enc 5 ++ i32enc 6 ++ i32enc 7 ++ i32enc 8 ++
        i32enc 0 ++ i32enc 1 ++ i32enc 2 ++ i32enc 2000000 ++ i32enc 3 ++
        i32enc 6 ++ i32enc 0 ++ f64enc 4562254508917369340 ++ []) =
      .ok ({ new_format := true, dim := 100, ws := 5, epoch := 6,
             min_count := 7, neg := 8, loss := 1, model := 2,
             bucket := 2000000, minn := 3, maxn := 6,
             t := 4562254508917369340 }, [])) ∧
    (load_model_params (i32enc 25 ++ i32enc 12 ++ i32enc 6 ++ i32enc 7 ++
        i32enc 8 ++ i32enc 0 ++ i32enc 1 ++ i32enc 2 ++ i32enc 2000000 ++
        i32enc 3 ++ i32enc 6 ++ i32enc 0 ++ f64enc 4562254508917369340 ++ []) =
      .ok ({ new_format := false, dim := 25, ws := 12, epoch := 6,
             min_count := 7, neg := 8, loss := 1, model := 2,
             bucket := 2000000, minn := 3, maxn := 6,
             t := 4562254508917369340 }, [])) := by
  have h := load_model_params_spec 25 12 100 5 6 7 8 0 1 2 2000000 3 6 0
    4562254508917369340 [] (by decide) (by decide) (by decide) (by decide)
    (by decide) (by decide) (by decide) (by decide) (by decide) (by decide)
    (by decide) (by decide) (by decide) (by decide) (by decide)
  exact ⟨by decide, by decide, h.1, h.2 (by decide)⟩

/-- C3 (code bug): when, after loading the vocabulary section, the final
reconstructed vocabulary size (here 1, with `nwords = 1` so the preceding
assert passes) differs from the declared vocabulary size (here 2), the load
does NOT log a warning and complete: the warning call's argument
`vocabulary.vocab_size` (line 849) is an unbound name, so Python raises
`NameError` and the load aborts. -/
theorem check_vocab_sizes_mismatch_fatal :
    check_vocab_sizes 1 1 2 = .error .nameError := by
  simp [check_vocab_sizes]

/-- C9: `_load_vocab` reads three 32-bit integers (declared vocabulary
size, word count, label count) and fails with the unsupported-model-kind
error (`NotImplementedError`) whenever the label count is positive,
returning no partially-constructed vocabulary. -/
theorem load_vocab_supervised_rejected (decode : List Nat → Option String)
    (new_format : Bool) (vocab_size nwords nlabels : Int) (rest : List Nat)
    (h1 : i32range vocab_size) (h2 : i32range nwords) (h3 : i32range nlabels)
    (hpos : 0 < nlabels) :
    load_vocab decode new_format
      (i32enc vocab_size ++ i32enc nwords ++ i32enc nlabels ++ rest) =
      .error .unsupportedModelKind := by
  simp only [load_vocab, List.append_assoc, withRead_some, readI32_enc,
    h1.1, h1.2, h2.1, h2.2, h3.1, h3.2]
  rw [if_pos hpos]

/-- Witness for C9: a supervised header (vocab_size 2, nwords 2,
nlabels 1) is rejected. -/
theorem load_vocab_supervised_rejected_witness :
    i32range 2 ∧ (0 : Int) < 1 ∧
    load_vocab decodeLatin1 true (i32enc 2 ++ i32enc 2 ++ i32enc 1 ++ []) =
      .error .unsupportedModelKind :=
  ⟨by decide, by decide,
    load_vocab_supervised_rejected decodeLatin1 true 2 2 1 []
      (by decide) (by decide) (by decide) (by decide)⟩

/-- C4 counterexample: a concrete new-format vocabulary section laid out as
the source writes it — sizes (1, 1, 0), token count 0, pruneidx_size 1, ONE
word entry ("a" = byte 97, count 5, flag 7) and then ONE pruned-index pair
(2, 3).  `load_vocab` (the code: pairs skipped AFTER the word entries)
parses it to the vocabulary {"a": 5} with the stream fully consumed, whereas
`load_vocab_spec_order` (the claim's order: pairs skipped immediately after
the pruned-index size, BEFORE the word entries) mis-parses the same bytes —
it consumes the word entry's bytes as the pair — and does not produce that
result.  So the code does not skip the pairs before the per-word entries. -/
theorem load_vocab_pair_order_counterexample :
    load_vocab decodeLatin1 true
      (i32enc 1 ++ i32enc 1 ++ i32enc 0 ++ i64enc 0 ++ i64enc 1 ++
        [97, 0] ++ i64enc 5 ++ [7] ++ i32enc 2 ++ i32enc 3) =
      .ok ({ vocab_size := 1, nwords := 1, raw_vocab := [("a", 5)] }, []) ∧
    load_vocab_spec_order decodeLatin1 true
      (i32enc 1 ++ i32enc 1 ++ i32enc 0 ++ i64enc 0 ++ i64enc 1 ++
        [97, 0] ++ i64enc 5 ++ [7] ++ i32enc 2 ++ i32enc 3) ≠
      .ok ({ vocab_size := 1, nwords := 1, raw_vocab := [("a", 5)] }, []) := by
  constructor
  · decide
  · decide

/-- C4 (amended): when reading a new-format vocabulary section,
`_load_vocab` reads one 64-bit integer giving the pruned-index table size,
then reads the per-word entries, and skips that many pairs of 32-bit
integers only AFTER the word entries — the pruned-index pairs follow the
word entries in the on-disk layout. -/
theorem load_vocab_new_format_layout (decode : List Nat → Option String)
    (vocab_size nwords ntokens pruneidx_size : Int)
    (es : List VocabEntry) (ps : List (Int × Int)) (rest : List Nat)
    (hvs : i32range vocab_size) (hnw : i32range nwords)
    (hnt : -(2 ^ 63) ≤ ntokens ∧ ntokens < 2 ^ 63)
    (hps : -(2 ^ 63) ≤ pruneidx_size ∧ pruneidx_size < 2 ^ 63)
    (hlen : es.length = vocab_size.toNat)
    (hplen : ps.length = pruneidx_size.toNat)
    (hes : ∀ e ∈ es, entryWF decode e)
    (hpairs : ∀ p ∈ ps, i32range p.1 ∧ i32range p.2) :
    load_vocab decode true
      (i32enc vocab_size ++ i32enc nwords ++ i32enc 0 ++ i64enc ntokens ++
        i64enc pruneidx_size ++ entriesEnc es ++ pairsEnc ps ++ rest) =
      .ok ({ vocab_size, nwords, raw_vocab := insertEntries decode [] es },
        rest) := by
  have h0a : -(2 ^ 31 : Int) ≤ 0 := by norm_num
  have h0b : (0 : Int) < 2 ^ 31 := by norm_num
  simp only [load_vocab, List.append_assoc, withRead_some, readI32_enc,
    readI64_enc, hvs.1, hvs.2, hnw.1, hnw.2, hnt.1, hnt.2, hps.1, hps.2,
    h0a, h0b, gt_iff_lt, lt_self_iff_false, if_false, ite_false,
    eq_self_iff_true, if_true, ite_true, ← hlen, ← hplen,
    loadVocabWords_enc decode es [] (pairsEnc ps ++ rest) hes,
    skipPruneidx_enc ps rest hpairs]

/-- Witness for C4 (amended): the concrete new-format section (sizes
(1, 1, 0), token count 9, one entry, one pruned-index pair after it)
parses to {"a": 5}. -/
theorem load_vocab_new_format_layout_witness :
    i32range 1 ∧ ([⟨[97], 5, 7⟩] : List VocabEntry).length = (1 : Int).toNat ∧
    load_vocab decodeLatin1 true
      (i32enc 1 ++ i32enc 1 ++ i32enc 0 ++ i64enc 9 ++ i64enc 1 ++
        entriesEnc [⟨[97], 5, 7⟩] ++ pairsEnc [(2, 3)] ++ []) =
      .ok ({ vocab_size := 1, nwords := 1,
             raw_vocab := insertEntries decodeLatin1 [] [⟨[97], 5, 7⟩] }, []) :=
  ⟨by decide, by decide,
    load_vocab_new_format_layout decodeLatin1 1 1 9 1 [⟨[97], 5, 7⟩] [(2, 3)]
      [] (by decide) (by decide) (by decide) (by decide) (by decide)
      (by decide) (by decide) (by decide)⟩

/-- C7 counterexample: a concrete legacy-format vocabulary section whose
declared vocabulary size is 2 but whose declared word count (`nwords`) is 1,
followed by TWO encoded entries.  `_load_vocab` reads `vocab_size` = 2
entries — both words end up in the dictionary and the stream is fully
consumed — not the 1 entry the claim's "declared word count" names. -/
theorem load_vocab_entry_count_counterexample :
    load_vocab decodeLatin1 false
      (i32enc 2 ++ i32enc 1 ++ i32enc 0 ++ i64enc 0 ++
        [97, 0] ++ i64enc 5 ++ [7] ++ [98, 0] ++ i64enc 6 ++ [9]) =
      .ok ({ vocab_size := 2, nwords := 1, raw_vocab := [("a", 5), ("b", 6)] },
        []) := by
  decide

/-- C7 (amended): for each entry of the vocabulary section, `_load_vocab`
reads a null-terminated byte sequence decoded with the caller-specified
encoding, then a 64-bit count and one discarded trailing byte, accumulating
into a word → count mapping; the number of entries read equals the DECLARED
VOCABULARY SIZE (the first of the three header integers — it coincides with
the declared word count in well-formed unsupervised files), and when two
entries carry the same word the later entry's count overwrites the earlier
one (last write wins: the fold of `dictInsert`). -/
theorem load_vocab_entries_spec (decode : List Nat → Option String)
    (vocab_size nwords ntokens : Int) (es : List VocabEntry) (rest : List Nat)
    (hvs : i32range vocab_size) (hnw : i32range nwords)
    (hnt : -(2 ^ 63) ≤ ntokens ∧ ntokens < 2 ^ 63)
    (hlen : es.length = vocab_size.toNat)
    (hes : ∀ e ∈ es, entryWF decode e) :
    load_vocab decode false
      (i32enc vocab_size ++ i32enc nwords ++ i32enc 0 ++ i64enc ntokens ++
        entriesEnc es ++ rest) =
      .ok ({ vocab_size, nwords, raw_vocab := insertEntries decode [] es },
        rest) := by
  have h0a : -(2 ^ 31 : Int) ≤ 0 := by norm_num
  have h0b : (0 : Int) < 2 ^ 31 := by norm_num
  simp only [load_vocab, List.append_assoc, withRead_some, readI32_enc,
    readI64_enc, hvs.1, hvs.2, hnw.1, hnw.2, hnt.1, hnt.2,
    h0a, h0b, gt_iff_lt, lt_self_iff_false, if_false, ite_false,
    Bool.false_eq_true, ← hlen,
    loadVocabWords_enc decode es [] rest hes]

/-- Witness for C7 (amended), also exhibiting last-write-wins: two entries
with the same word "a" (counts 5 then 9) leave {"a": 9}. -/
theorem load_vocab_entries_spec_witness :
    insertEntries decodeLatin1 [] [⟨[97], 5, 7⟩, ⟨[97], 9, 1⟩] = [("a", 9)] ∧
    load_vocab decodeLatin1 false
      (i32enc 2 ++ i32enc 2 ++ i32enc 0 ++ i64enc 4 ++
        entriesEnc [⟨[97], 5, 7⟩, ⟨[97], 9, 1⟩] ++ []) =
      .ok ({ vocab_size := 2, nwords := 2,
             raw_vocab := insertEntries decodeLatin1 []
               [⟨[97], 5, 7⟩, ⟨[97], 9, 1⟩] }, []) :=
  ⟨by decide,
    load_vocab_entries_spec decodeLatin1 2 2 4 [⟨[97], 5, 7⟩, ⟨[97], 9, 1⟩] []
      (by decide) (by decide) (by decide) (by decide) (by decide)⟩

/-- C5 counterexample: `_load_matrix` applied twice to the SAME file bytes
(quant flag 0, 0 rows, 1 column, no data) returns float32 data when the
loading platform's C float is 4 bytes wide and float64 data when it is 8
bytes wide.  The float width is therefore a function of the loading
platform (`struct.calcsize('@f')`), not of any header field of the file —
the file contains no float-width field at all. -/
theorem load_matrix_float_width_counterexample :
    load_matrix 4 true none (0 :: (i64enc 0 ++ i64enc 1 ++ [])) =
      .ok ({ rows := 0, cols := 1, dtype := .float32, data := [] }, []) ∧
    load_matrix 8 true none (0 :: (i64enc 0 ++ i64enc 1 ++ [])) =
      .ok ({ rows := 0, cols := 1, dtype := .float64, data := [] }, []) := by
  constructor
  · decide
  · decide

/-- C5 (amended): `_load_matrix` takes the float width from the loading
platform's C float size (`struct.calcsize('@f')`), not from any field of
the file, and raises the incompatible-float-size `ValueError` whenever that
width is neither 4 nor 8 bytes; a 4-byte width selects 4-byte IEEE-754
(float32) data, the default on every standard platform. -/
theorem load_matrix_float_width_spec :
    (∀ float_size : Nat, float_size ≠ 4 → float_size ≠ 8 →
      ∀ (q : Nat) (num_vectors dim : Int) (rest : List Nat),
        (-(2 ^ 63) ≤ num_vectors ∧ num_vectors < 2 ^ 63) →
        (-(2 ^ 63) ≤ dim ∧ dim < 2 ^ 63) →
        load_matrix float_size true none
          (q :: (i64enc num_vectors ++ i64enc dim ++ rest)) =
          .error .incompatibleFloatSize) ∧
    (∀ (q : Nat) (dim : Int) (rest : List Nat),
      (-(2 ^ 63) ≤ dim ∧ dim < 2 ^ 63) →
      load_matrix 4 true none (q :: (i64enc 0 ++ i64enc dim ++ rest)) =
        .ok ({ rows := 0, cols := dim, dtype := .float32, data := [] },
          rest)) := by
  have h00 : -(2 ^ 63 : Int) ≤ 0 := by norm_num
  have h01 : (0 : Int) < 2 ^ 63 := by norm_num
  constructor
  · intro float_size h4 h8 q num_vectors dim rest hnv hdim
    simp only [load_matrix, List.append_assoc, readBool_cons,
      Option.map_some', withRead_some, readI64_enc, hnv.1, hnv.2,
      hdim.1, hdim.2, Option.getD_none, ne_eq, eq_self_iff_true, not_true,
      if_false, ite_false, h4, h8, ite_true, if_true]
  · intro q dim rest hdim
    simp only [load_matrix, List.append_assoc, readBool_cons,
      Option.map_some', withRead_some, readI64_enc, h00, h01,
      hdim.1, hdim.2, Option.getD_none, ne_eq, eq_self_iff_true, not_true,
      if_false, ite_false, ite_true, if_true, zero_mul, Int.toNat_zero,
      readFloats]

/-- Witness for C5 (amended): float width 2 is rejected; float width 4
yields float32 on a concrete header. -/
theorem load_matrix_float_width_spec_witness :
    (2 : Nat) ≠ 4 ∧ (2 : Nat) ≠ 8 ∧
    load_matrix 2 true none (5 :: (i64enc 3 ++ i64enc 4 ++ [])) =
      .error .incompatibleFloatSize ∧
    load_matrix 4 true none (0 :: (i64enc 0 ++ i64enc 7 ++ [1, 2])) =
      .ok ({ rows := 0, cols := 7, dtype := .float32, data := [] }, [1, 2]) :=
  ⟨by decide, by decide,
    load_matrix_float_width_spec.1 2 (by decide) (by decide) 5 3 4 []
      (by decide) (by decide),
    load_matrix_float_width_spec.2 0 7 [1, 2] (by decide)⟩

/-- C8 counterexample: a concrete new-format matrix whose quantization flag
byte is 1 (True — quantized data indicated).  `_load_matrix` does not fail
with any unsupported-format error: it discards the flag and parses the
matrix normally. -/
theorem load_matrix_quant_true_not_rejected :
    load_matrix 4 true none
      ([1] ++ i64enc 1 ++ i64enc 1 ++ encLE 4 1065353216) =
      .ok ({ rows := 1, cols := 1, dtype := .float32,
             data := [1065353216] }, []) := by
  decide

/-- C8 (amended): on a new-format matrix read, `_load_matrix` consumes
exactly one boolean quantization flag before the row/column counts and
discards it without inspection — for every flag byte the parse proceeds
exactly as the legacy-format parse of the remaining bytes, so quantized
data is never detected or rejected. -/
theorem load_matrix_quant_flag_ignored (float_size : Nat)
    (expected_vector_size : Option Int) (b : Nat) (rest : List Nat) :
    load_matrix float_size true expected_vector_size (b :: rest) =
      load_matrix float_size false expected_vector_size rest := by
  simp only [load_matrix, readBool_cons, Option.map_some', withRead_some,
    Bool.false_eq_true, eq_self_iff_true, ite_true, if_true, ite_false,
    if_false]

/-- C2: a vocabulary-growth event adding `new_rows.length` = k new entries
increases the VocabularyVectorTable length by exactly k and the length of
its lock-factor mask by exactly k, while every previously-assigned row of
both keeps its contents and its index (the old tables are prefixes of the
new ones). -/
theorem init_ngrams_weights_update_grow (st : GrowState)
    (new_rows : List (List ℚ)) :
    (init_ngrams_weights_update st new_rows).vectors_vocab.length =
      st.vectors_vocab.length + new_rows.length ∧
    (init_ngrams_weights_update st new_rows).vectors_vocab_lockf.length =
      st.vectors_vocab_lockf.length + new_rows.length ∧
    (init_ngrams_weights_update st new_rows).vectors_vocab.take
      st.vectors_vocab.length = st.vectors_vocab ∧
    (init_ngrams_weights_update st new_rows).vectors_vocab_lockf.take
      st.vectors_vocab_lockf.length = st.vectors_vocab_lockf := by
  unfold init_ngrams_weights_update update_ngrams_weights_vocab pad_ones
  refine ⟨by simp, ?_, List.take_left _ _, List.take_left _ _⟩
  simp only [List.length_append, List.length_replicate]
  omega

/-- C6 (code bug): after loading a persisted model with 1 vocabulary word,
dimension 4 and 10 buckets, `init_post_load` allocates the n-gram/bucket
lock-factor mask with shape (1, 4) — `num_vectors = len(model.wv.vectors)`
rows, the vocabulary size — while the bucket-vector table it guards has 10
rows.  The mask's shape does not match the table it guards, contradicting
the invariant the claim states (the source's own FIXME comments at lines
1143-1145 and 1177-1179 flag exactly this inconsistency). -/
theorem init_post_load_lockf_shape_mismatch :
    (init_post_load_shapes 1 4 10).vectors_ngrams_lockf_shape = (1, 4) ∧
    (init_post_load_shapes 1 4 10).vectors_ngrams_shape = (10, 4) ∧
    (init_post_load_shapes 1 4 10).vectors_ngrams_lockf_shape ≠
      (init_post_load_shapes 1 4 10).vectors_ngrams_shape := by
  refine ⟨rfl, rfl, by decide⟩

/-- C10: calling `build_vocab` with `update=True` on a model whose
vocabulary is empty raises a `RuntimeError`, and the model state —
vocabulary, tables, masks and snapshots — is returned unchanged by the
failed call, for every possible superclass build behaviour. -/
theorem build_vocab_update_empty_vocab (st : FTModelState)
    (super_build : FTModelState → FTModelState) (h : st.wv_vocab = []) :
    build_vocab st true super_build = (st, some .runtimeError) := by
  simp [build_vocab, h]

/-- Witness for C10: the empty-vocabulary model state with `update=True`
(and the identity superclass build) raises and is unchanged. -/
theorem build_vocab_update_empty_vocab_witness :
    ({ wv_vocab := [], vectors_vocab := [[1]], vectors_vocab_lockf := [[1]],
       hash2index_len := 3, old_vocab_len := 0,
       old_hash2index_len := 0 } : FTModelState).wv_vocab = [] ∧
    build_vocab
      { wv_vocab := [], vectors_vocab := [[1]], vectors_vocab_lockf := [[1]],
        hash2index_len := 3, old_vocab_len := 0, old_hash2index_len := 0 }
      true id =
      ({ wv_vocab := [], vectors_vocab := [[1]],
         vectors_vocab_lockf := [[1]], hash2index_len := 3,
         old_vocab_len := 0, old_hash2index_len := 0 },
        some .runtimeError) :=
  ⟨rfl, build_vocab_update_empty_vocab _ id rfl⟩

end FasttextPy
